import Mathlib

/-!
Verification of the PyCommander restaurant point-of-sale backend.

The definitions below are a shallow embedding of the Python source:

* `src/database/objects/*.py`       — the data model (records and enums);
* `src/database/repositorys/*.py`   — SQL queries over a `DBState`, with
  SQL aggregate semantics (`SUM` over an empty set is `NULL`, `NULL + x = NULL`)
  made explicit through `Option`;
* `src/Routes/order_route.py`, `src/Routes/auth_route.py`,
  `src/Routes/statistics_route.py` — the route handlers, modelled as
  functions from a database state (plus the request fields and the values
  produced by external collaborators such as bcrypt and JWT creation) to a
  result and a new database state.

Database errors are modelled by explicit `insertOk` / `updateOk` flags where
a handler branches on a repository's boolean result.
-/

namespace PyCommander

/-- Order status enum from `src/database/objects/RestaurantOrder.py`. -/
inductive OrderStatus
  | Open
  | Closed
  | Cancelled
deriving DecidableEq, Repr

/-- Payment method enum from `src/database/objects/RestaurantOrder.py`. -/
inductive PaymentMethod
  | Cash
  | Card
  | Pix
  | Others
deriving DecidableEq, Repr

/-- User role enum from `src/database/objects/User.py`. -/
inductive UserRole
  | Admin
  | Waiter
  | Cook
  | Cashier
deriving DecidableEq, Repr

/-- `RestaurantOrder` dataclass / table row. Times are modelled as integers. -/
structure RestaurantOrder where
  id : Nat
  number : Nat
  entry_time : Int
  exit_time : Option Int
  status : OrderStatus
  note : String
  payment_method : Option PaymentMethod
  total_amount : Rat
  paid : Bool
deriving DecidableEq, Repr

/-- `OrderItem` dataclass / table row (`src/database/objects/OrderItem.py`). -/
structure OrderItem where
  id : Nat
  restaurant_order_id : Nat
  product_id : Option Nat
  product_per_kg_id : Option Nat
  quantity : Int
deriving DecidableEq, Repr

/-- `Product` dataclass / table row (`src/database/objects/Product.py`). -/
structure Product where
  id : Nat
  name : String
  description : String
  price : Rat
  category : String
  stock : Int
  active : Bool
deriving DecidableEq, Repr

/-- `ProductPerKg` dataclass / table row (`src/database/objects/ProductPerKg.py`).
The stored `total` column is the database-computed `weight * price_per_kg`;
queries that read it recompute that product, so it is not a stored field here. -/
structure ProductPerKg where
  id : Nat
  description : String
  weight : Rat
  price_per_kg : Rat
  category : String
deriving DecidableEq, Repr

/-- `User` dataclass / table row (`src/database/objects/User.py`). -/
structure User where
  id : Nat
  name : String
  username : String
  email : String
  password_hash : String
  role : UserRole
  active : Bool
deriving DecidableEq, Repr

/-- `JWTItem` dataclass / `JWTList` table row (`src/database/objects/JWTItem.py`):
the refresh-token allow-list record. -/
structure JWTItem where
  jti : String
  user_id : Nat
  expires_at : Int
deriving DecidableEq, Repr

/-- The relational database state: one list per table, in row order. -/
structure DBState where
  orders : List RestaurantOrder
  order_items : List OrderItem
  products : List Product
  products_per_kg : List ProductPerKg
  users : List User
  jwt_list : List JWTItem
deriving DecidableEq, Repr

/-! ## SQL aggregate semantics -/

/-- SQL `SUM` over a rational column: `NULL` (`none`) on the empty set. -/
def sqlSum (xs : List Rat) : Option Rat :=
  match xs with
  | [] => none
  | _ :: _ => some (xs.foldl (· + ·) 0)

/-- SQL `SUM` over an integer column: `NULL` on the empty set. -/
def sqlSumI (xs : List Int) : Option Int :=
  match xs with
  | [] => none
  | _ :: _ => some (xs.foldl (· + ·) 0)

/-- SQL `AVG` over a rational column: `NULL` on the empty set. -/
def sqlAvg (xs : List Rat) : Option Rat :=
  match xs with
  | [] => none
  | _ :: _ => some (xs.foldl (· + ·) 0 / (xs.length : Rat))

/-- SQL `AVG` over an integer column (result is a decimal): `NULL` on empty. -/
def sqlAvgI (xs : List Int) : Option Rat :=
  match xs with
  | [] => none
  | _ :: _ => some ((xs.foldl (· + ·) 0 : Int) / (xs.length : Rat))

/-- SQL `MAX` over a rational column: `NULL` on the empty set. -/
def sqlMax (xs : List Rat) : Option Rat :=
  match xs with
  | [] => none
  | x :: rest => some (rest.foldl max x)

/-- SQL `MIN` over a rational column: `NULL` on the empty set. -/
def sqlMin (xs : List Rat) : Option Rat :=
  match xs with
  | [] => none
  | x :: rest => some (rest.foldl min x)

/-- SQL `MAX` over an integer column: `NULL` on the empty set. -/
def sqlMaxI (xs : List Int) : Option Int :=
  match xs with
  | [] => none
  | x :: rest => some (rest.foldl max x)

/-- SQL `MIN` over an integer column: `NULL` on the empty set. -/
def sqlMinI (xs : List Int) : Option Int :=
  match xs with
  | [] => none
  | x :: rest => some (rest.foldl min x)

/-- SQL addition of two nullable values: `NULL` propagates. -/
def sqlAdd : Option Rat → Option Rat → Option Rat
  | some a, some b => some (a + b)
  | _, _ => none

/-! ## Repository queries (`src/database/repositorys`) -/

/-- `RestaurantOrderRepository.select_by_number_open`:
`SELECT ... FROM RestaurantOrder WHERE Number = ? AND Status = 'Open'`,
first matching row. -/
def select_by_number_open (s : DBState) (n : Nat) : Option RestaurantOrder :=
  s.orders.find? (fun o => decide (o.number = n ∧ o.status = OrderStatus.Open))

/-- `ProductRepository.select_by_id`. -/
def product_select_by_id (s : DBState) (pid : Nat) : Option Product :=
  s.products.find? (fun p => decide (p.id = pid))

/-- `ProductPerKgRepository.select_by_id`. -/
def perkg_select_by_id (s : DBState) (pkid : Nat) : Option ProductPerKg :=
  s.products_per_kg.find? (fun p => decide (p.id = pkid))

/-- `UserRepository.select_by_username`. -/
def select_by_username (s : DBState) (username : String) : Option User :=
  s.users.find? (fun u => decide (u.username = username))

/-- `UserRepository.email_exists`. -/
def email_exists (s : DBState) (email : String) : Bool :=
  s.users.any (fun u => decide (u.email = email))

/-- `JWTListRepository.exists_by_jti`. -/
def exists_by_jti (s : DBState) (jti : String) : Bool :=
  s.jwt_list.any (fun j => decide (j.jti = jti))

/-- The first scalar subquery of `RestaurantOrderRepository.calc_total`:
`SUM(OrderItem.Quantity * Product.Price)` over the inner join of
`OrderItem`, `RestaurantOrder` and `Product`, restricted to the given order id.
Each list element is one joined row's `Quantity * Price`. -/
def fixedContribs (s : DBState) (oid : Nat) : List Rat :=
  s.order_items.flatMap fun it =>
    s.orders.flatMap fun o =>
      s.products.flatMap fun p =>
        if o.id = it.restaurant_order_id ∧ it.product_id = some p.id ∧ o.id = oid
        then [(it.quantity : Rat) * p.price] else []

/-- The second scalar subquery of `RestaurantOrderRepository.calc_total`:
`SUM(OrderItem.Quantity * ProductPerKg.PricePerKg * ProductPerKg.Weight)`
over the inner join of `OrderItem`, `RestaurantOrder` and `ProductPerKg`. -/
def perKgContribs (s : DBState) (oid : Nat) : List Rat :=
  s.order_items.flatMap fun it =>
    s.orders.flatMap fun o =>
      s.products_per_kg.flatMap fun p =>
        if o.id = it.restaurant_order_id ∧ it.product_per_kg_id = some p.id ∧ o.id = oid
        then [(it.quantity : Rat) * p.price_per_kg * p.weight] else []

/-- `RestaurantOrderRepository.calc_total`: the SQL computes
`(SELECT SUM(...)) + (SELECT SUM(...))` — SQL `+`, so a `NULL` branch makes
the whole expression `NULL` — and the Python then returns
`row[0] if row[0] is not None else 0`.  In an error-free run the scalar
`SELECT` always produces a row, so the result is always `some _`. -/
def calc_total (s : DBState) (oid : Nat) : Option Rat :=
  match sqlAdd (sqlSum (fixedContribs s oid)) (sqlSum (perKgContribs s oid)) with
  | some v => some v
  | none => some 0

/-- Modelled from the spec: the total as the specification words it — each
`SUM` branch coalesced `NULL → 0` *before* the two branches are added
(`Σ(qty × price) + Σ(qty × weight × price_per_kg)`).  Used only to compare
the claimed semantics with `calc_total` as implemented. -/
def specTotal (s : DBState) (oid : Nat) : Rat :=
  ((sqlSum (fixedContribs s oid)).getD 0) + ((sqlSum (perKgContribs s oid)).getD 0)

/-! ## `/order/total` route (`get_total` in `src/Routes/order_route.py`) -/

/-- Result of the `/order/total` handler. -/
inductive TotalResult
  | notFound
  | okTotal (total : Rat)
  | calcError
deriving DecidableEq, Repr

/-- `get_total`: resolve the open order by number (404 if absent), then return
`calc_total`; a `None` total would be reported as an error. -/
def get_total (s : DBState) (n : Nat) : TotalResult :=
  match select_by_number_open s n with
  | none => TotalResult.notFound
  | some o =>
    match calc_total s o.id with
    | some t => TotalResult.okTotal t
    | none => TotalResult.calcError

/-! ## `/order/checkout` route (`checkout` in `src/Routes/order_route.py`) -/

/-- Result of the `/order/checkout` handler. -/
inductive CheckoutResult
  | notFound
  | calcError
  | ok
  | updateFailed
deriving DecidableEq, Repr

/-- `checkout`: resolve the open order by number (404 if absent), set
`payment_method`, `note` (request note if supplied, else the stored one),
`status = Closed`, `exit_time = now`, `paid = true`, snapshot
`total_amount := calc_total` (computed against the pre-update state), then
run `RestaurantOrderRepository.update` (`UPDATE ... WHERE ID = ?`).
`updateOk` models the repository's boolean result. -/
def checkout (s : DBState) (n : Nat) (pm : PaymentMethod) (note : Option String)
    (now : Int) (updateOk : Bool) : CheckoutResult × DBState :=
  match select_by_number_open s n with
  | none => (CheckoutResult.notFound, s)
  | some o =>
    match calc_total s o.id with
    | none => (CheckoutResult.calcError, s)
    | some t =>
      let r : RestaurantOrder :=
        { o with payment_method := some pm, note := note.getD o.note,
                 status := OrderStatus.Closed, exit_time := some now,
                 paid := true, total_amount := t }
      if updateOk then
        (CheckoutResult.ok,
         { s with orders := s.orders.map (fun q => if q.id = r.id then r else q) })
      else (CheckoutResult.updateFailed, s)

/-! ## `/order/add_item` route (`add_item` in `src/Routes/order_route.py`) -/

/-- Result of the `/order/add_item` handler. -/
inductive AddItemResult
  | orderNotFound
  | conflict
  | productNotFound
  | perKgNotFound
  | okFixedUpdated
  | okFixedNoStockUpdate
  | okPerKg
  | insertFailed
deriving DecidableEq, Repr

/-- `add_item`: resolve the open order (404 if absent); `Conflict` if both or
neither of `product_id` / `product_per_kg_id` are supplied.  On the
fixed-price path: resolve the product (404 if absent), insert the
`OrderItem`, then decrement the in-memory product's stock by the quantity
and persist it with `ProductRepository.update` (`UPDATE Product SET ...
WHERE ID = ?`, overwriting every row with that id); the route reports
success whether or not that stock update persisted.  On the per-kg path:
resolve the per-kg product and insert the `OrderItem` only.
`newId` is the row id the insert assigns; `insertOk` / `updateOk` model the
repositories' boolean results. -/
def add_item (s : DBState) (n : Nat) (pid ppkid : Option Nat) (qty : Int)
    (newId : Nat) (insertOk updateOk : Bool) : AddItemResult × DBState :=
  match select_by_number_open s n with
  | none => (AddItemResult.orderNotFound, s)
  | some o =>
    match pid, ppkid with
    | some _, some _ => (AddItemResult.conflict, s)
    | none, none => (AddItemResult.conflict, s)
    | some p, none =>
      match product_select_by_id s p with
      | none => (AddItemResult.productNotFound, s)
      | some prod =>
        if insertOk then
          let s1 : DBState :=
            { s with order_items :=
                s.order_items ++ [⟨newId, o.id, some prod.id, none, qty⟩] }
          if updateOk then
            (AddItemResult.okFixedUpdated,
             { s1 with products := s1.products.map fun q =>
                 if q.id = prod.id
                 then { prod with stock := prod.stock - qty } else q })
          else (AddItemResult.okFixedNoStockUpdate, s1)
        else (AddItemResult.insertFailed, s)
    | none, some pk =>
      match perkg_select_by_id s pk with
      | none => (AddItemResult.perKgNotFound, s)
      | some prodk =>
        if insertOk then
          (AddItemResult.okPerKg,
           { s with order_items :=
               s.order_items ++ [⟨newId, o.id, none, some prodk.id, qty⟩] })
        else (AddItemResult.insertFailed, s)

/-! ## `/order/items` projection
(`OrderItemRepository.select_all_items_special_format`, per-kg half) -/

/-- One row of the per-kg half of the `/order/items` projection:
`SELECT Weight, PricePerKg, (Weight * PricePerKg), Category, ProductPerKg.ID`
joined through `OrderItem` and `RestaurantOrder`.  Note the select list
carries no quantity. -/
structure PerKgLine where
  weight : Rat
  price_per_kg : Rat
  total : Rat
  category : String
  product_per_kg_id : Nat
deriving DecidableEq, Repr

/-- The per-kg rows returned by
`OrderItemRepository.select_all_items_special_format` for the given order. -/
def perKgLines (s : DBState) (oid : Nat) : List PerKgLine :=
  s.order_items.flatMap fun it =>
    s.orders.flatMap fun o =>
      s.products_per_kg.flatMap fun p =>
        if o.id = it.restaurant_order_id ∧ it.product_per_kg_id = some p.id ∧ o.id = oid
        then [⟨p.weight, p.price_per_kg, p.weight * p.price_per_kg, p.category, p.id⟩]
        else []

/-! ## `/auth/login` route (`login` in `src/Routes/auth_route.py`) -/

/-- Result of the `/auth/login` handler.  `unauthorized msg` is the 401
response with body message `msg`. -/
inductive LoginResult
  | ok (access_token refresh_token : String)
  | unauthorized (msg : String)
deriving DecidableEq, Repr

/-- `login`: look the user up by username; on any of the three failure cases
(absent, inactive, bcrypt mismatch) the handler falls through to the single
`401 'Wrong username or password'` return.  On success it issues the two
tokens (created by the external JWT library, passed in here), then
`delete_by_user_id` (`DELETE FROM JWTList WHERE user_id = ?`) followed by
`insert` of the new allow-list record.  `verify` stands for the external
`verify_bcrypt_password`. -/
def login (s : DBState) (verify : String → String → Bool)
    (username password accessTok refreshTok : String) (expiresAt : Int) :
    LoginResult × DBState :=
  match select_by_username s username with
  | some u =>
    if u.active then
      if verify password u.password_hash then
        (LoginResult.ok accessTok refreshTok,
         { s with jwt_list :=
             (s.jwt_list.filter (fun j => decide (¬ j.user_id = u.id)))
               ++ [⟨refreshTok, u.id, expiresAt⟩] })
      else (LoginResult.unauthorized "Wrong username or password", s)
    else (LoginResult.unauthorized "Wrong username or password", s)
  | none => (LoginResult.unauthorized "Wrong username or password", s)

/-! ## `/auth/edit` route (`edit_user` in `src/Routes/auth_route.py`) -/

/-- Result of the `/auth/edit` handler.  The source never checks the
username lookup for `None` (it would raise); that branch is modelled as the
distinct `crashUserMissing` result with the state untouched. -/
inductive EditResult
  | crashUserMissing
  | noChanges
  | emailExists
  | ok
  | failed
deriving DecidableEq, Repr

/-- `edit_user`: build the edited `User` from the request fields, falling
back to the stored values field by field (`hashFn` stands for the external
`generate_bcrypt_hash`, applied only when a new password is supplied).
`Conflict` if nothing changed, or if the email changed to one that already
exists.  Then `UserRepository.update`; on success the handler returns at
once — the `delete_by_user_id` call invalidating the user's refresh token
sits after that early return and runs only when the update failed and the
username or password hash changed. -/
def edit_user (s : DBState) (hashFn : String → String) (username : String)
    (new_username new_name new_email new_password : Option String)
    (new_active : Option Bool) (new_role : Option UserRole) (updateOk : Bool) :
    EditResult × DBState :=
  match select_by_username s username with
  | none => (EditResult.crashUserMissing, s)
  | some old =>
    let ph : String :=
      match new_password with
      | some p => hashFn p
      | none => old.password_hash
    let nu : User :=
      { id := old.id, name := new_name.getD old.name,
        username := new_username.getD old.username,
        email := new_email.getD old.email, password_hash := ph,
        role := new_role.getD old.role, active := new_active.getD old.active }
    if nu = old then (EditResult.noChanges, s)
    else if ¬ old.email = nu.email ∧ email_exists s nu.email = true then
      (EditResult.emailExists, s)
    else if updateOk then
      (EditResult.ok,
       { s with users := s.users.map (fun u => if u.id = nu.id then nu else u) })
    else if ¬ old.username = nu.username ∨ ¬ old.password_hash = nu.password_hash then
      (EditResult.failed,
       { s with jwt_list := s.jwt_list.filter (fun j => decide (¬ j.user_id = old.id)) })
    else (EditResult.failed, s)

/-! ## `/statistics/order/*` routes (`src/Routes/statistics_route.py`) -/

/-- The orders matched by both statistics queries:
`Paid = 1 AND Entry_Time BETWEEN ? AND ?`. -/
def windowOrders (s : DBState) (a b : Int) : List RestaurantOrder :=
  s.orders.filter
    (fun o => decide (o.paid = true ∧ a ≤ o.entry_time ∧ o.entry_time ≤ b))

/-- One group of `RestaurantOrderRepository.get_payment_summary`:
payment method, `COUNT(*)` and `SUM(Total_Amount)`. -/
structure PaymentSummaryRow where
  method : PaymentMethod
  count : Nat
  total_sum : Rat
deriving DecidableEq, Repr

/-- `RestaurantOrderRepository.get_payment_summary`: the window's paid
orders, restricted to the four named payment methods (the SQL `IN` filter,
which also drops a `NULL` method), grouped by method; `None` when the
grouped result has no rows at all. -/
def get_payment_summary (s : DBState) (a b : Int) :
    Option (List PaymentSummaryRow) :=
  let rows : List PaymentSummaryRow :=
    [PaymentMethod.Pix, PaymentMethod.Card, PaymentMethod.Cash,
     PaymentMethod.Others].flatMap fun m =>
      match (windowOrders s a b).filter
          (fun o => decide (o.payment_method = some m)) with
      | [] => []
      | l => [⟨m, l.length, (l.map (fun o => o.total_amount)).foldl (· + ·) 0⟩]
  match rows with
  | [] => none
  | _ :: _ => some rows

/-- The single aggregate row of `RestaurantOrderRepository.get_order_stats`. -/
structure OrderStats where
  total_sum : Option Rat
  average_amount : Option Rat
  max_amount : Option Rat
  min_amount : Option Rat
  total_duration : Option Int
  average_duration : Option Rat
  max_duration : Option Int
  min_duration : Option Int
deriving DecidableEq, Repr

/-- `RestaurantOrderRepository.get_order_stats`: SUM/AVG/MAX/MIN of
`Total_Amount` and of `TIMESTAMPDIFF(SECOND, Entry_Time, Exit_Time)` over
the window's paid orders.  An aggregate query without `GROUP BY` always
returns exactly one row, so in an error-free run the result is always
`some _` — with every field `NULL` when no order matches.  A `NULL`
`Exit_Time` makes `TIMESTAMPDIFF` `NULL`, which the aggregates skip. -/
def get_order_stats (s : DBState) (a b : Int) : Option OrderStats :=
  let w := windowOrders s a b
  let amounts := w.map (fun o => o.total_amount)
  let durs := w.filterMap (fun o => o.exit_time.map (fun e => e - o.entry_time))
  some ⟨sqlSum amounts, sqlAvg amounts, sqlMax amounts, sqlMin amounts,
        sqlSumI durs, sqlAvgI durs, sqlMaxI durs, sqlMinI durs⟩

/-- Result of the `/statistics/order/*` handlers. -/
inductive StatsResult
  | notFound
  | ok (payment_summary : Option (List PaymentSummaryRow))
       (order_stats : Option OrderStats)
deriving DecidableEq, Repr

/-- `get_order_status` in `src/Routes/statistics_route.py`: 404 only when
*both* repository results are `None`, otherwise success carrying both
(possibly `None` / all-`NULL`) aggregates. -/
def get_order_status (s : DBState) (a b : Int) : StatsResult :=
  let ps := get_payment_summary s a b
  let os := get_order_stats s a b
  if ps = none ∧ os = none then StatsResult.notFound
  else StatsResult.ok ps os

/-! ## Concrete database states used as test inputs -/

/-- An open order (number 9) holding a single fixed-price item
(quantity 2 of a price-10 product) and no per-kg items. -/
def exC1 : DBState :=
  { orders := [⟨1, 9, 0, none, OrderStatus.Open, "", none, 0, false⟩],
    order_items := [⟨1, 1, some 1, none, 2⟩],
    products := [⟨1, "Burger", "", 10, "Food", 50, true⟩],
    products_per_kg := [], users := [], jwt_list := [] }

/-- An open order (number 1) with no items yet; product id 3 has stock 10. -/
def exC2 : DBState :=
  { orders := [⟨1, 1, 0, none, OrderStatus.Open, "", none, 0, false⟩],
    order_items := [],
    products := [⟨3, "Burger", "", 10, "Food", 10, true⟩],
    products_per_kg := [⟨7, "meat", 3, 5, "Meat"⟩],
    users := [], jwt_list := [] }

/-- One admin user `alice` with a live refresh-token allow-list record. -/
def exC3 : DBState :=
  { orders := [], order_items := [], products := [], products_per_kg := [],
    users := [⟨1, "Alice", "alice", "alice@example.com", "oldhash", UserRole.Admin, true⟩],
    jwt_list := [⟨"tok1", 1, 99⟩] }

/-- Stand-in for the external bcrypt hash function. -/
def exHashFn : String → String := fun p => p ++ "-hashed"

/-- Stand-in for the external bcrypt verifier matching `exHashFn`. -/
def exVerify : String → String → Bool :=
  fun plain hash => decide (hash = plain ++ "-hashed")

/-- An open order (number 5) with no items. -/
def exC4 : DBState :=
  { orders := [⟨1, 5, 0, none, OrderStatus.Open, "", none, 0, false⟩],
    order_items := [], products := [], products_per_kg := [],
    users := [], jwt_list := [] }

/-- The single open order row of `exC4`. -/
def exC4order : RestaurantOrder := ⟨1, 5, 0, none, OrderStatus.Open, "", none, 0, false⟩

/-- A state with no users at all. -/
def exC5 : DBState :=
  { orders := [], order_items := [], products := [], products_per_kg := [],
    users := [], jwt_list := [] }

/-- One active user `alice` (password hash matching `exVerify "pw"`) with a
stale allow-list record from an earlier login. -/
def exC6 : DBState :=
  { orders := [], order_items := [], products := [], products_per_kg := [],
    users := [⟨1, "Alice", "alice", "alice@example.com", "pw-hashed", UserRole.Admin, true⟩],
    jwt_list := [⟨"oldtok", 1, 5⟩] }

/-- The single user row of `exC6`. -/
def exC6user : User := ⟨1, "Alice", "alice", "alice@example.com", "pw-hashed", UserRole.Admin, true⟩

/-- An open order (number 4) and an empty `OrderItem` table. -/
def exC8 : DBState :=
  { orders := [⟨1, 4, 0, none, OrderStatus.Open, "", none, 0, false⟩],
    order_items := [], products := [], products_per_kg := [],
    users := [], jwt_list := [] }

/-- The single open order row of `exC8`. -/
def exC8order : RestaurantOrder := ⟨1, 4, 0, none, OrderStatus.Open, "", none, 0, false⟩

/-- A completely empty database. -/
def exC9 : DBState :=
  { orders := [], order_items := [], products := [], products_per_kg := [],
    users := [], jwt_list := [] }

/-- An open order (number 2, id 1) holding one per-kg item with quantity 2
referencing per-kg product 7 (weight 3, price-per-kg 5). -/
def exC10 : DBState :=
  { orders := [⟨1, 2, 0, none, OrderStatus.Open, "", none, 0, false⟩],
    order_items := [⟨1, 1, none, some 7, 2⟩],
    products := [],
    products_per_kg := [⟨7, "meat", 3, 5, "Meat"⟩],
    users := [], jwt_list := [] }

/-- The single order item of `exC10`. -/
def exC10item : OrderItem := ⟨1, 1, none, some 7, 2⟩

/-- The single order of `exC10`. -/
def exC10order : RestaurantOrder := ⟨1, 2, 0, none, OrderStatus.Open, "", none, 0, false⟩

/-- The single per-kg product of `exC10`. -/
def exC10perkg : ProductPerKg := ⟨7, "meat", 3, 5, "Meat"⟩

/-! ## Helper lemmas -/

/-- If no `OrderItem` row references the order, the fixed-price join of
`calc_total` is empty. -/
theorem fixedContribs_nil (s : DBState) (oid : Nat)
    (h : ∀ it ∈ s.order_items, ¬ it.restaurant_order_id = oid) :
    fixedContribs s oid = [] := by
  rw [List.eq_nil_iff_forall_not_mem]
  intro x hx
  simp only [fixedContribs, List.mem_flatMap] at hx
  obtain ⟨it, hit, o, ho, p, hp, hx⟩ := hx
  by_cases hc : o.id = it.restaurant_order_id ∧ it.product_id = some p.id ∧ o.id = oid
  · exact h it hit (hc.1.symm.trans hc.2.2)
  · rw [if_neg hc] at hx
    exact (List.not_mem_nil x) hx

/-- If no `OrderItem` row references the order, the per-kg join of
`calc_total` is empty. -/
theorem perKgContribs_nil (s : DBState) (oid : Nat)
    (h : ∀ it ∈ s.order_items, ¬ it.restaurant_order_id = oid) :
    perKgContribs s oid = [] := by
  rw [List.eq_nil_iff_forall_not_mem]
  intro x hx
  simp only [perKgContribs, List.mem_flatMap] at hx
  obtain ⟨it, hit, o, ho, p, hp, hx⟩ := hx
  by_cases hc : o.id = it.restaurant_order_id ∧ it.product_per_kg_id = some p.id ∧ o.id = oid
  · exact h it hit (hc.1.symm.trans hc.2.2)
  · rw [if_neg hc] at hx
    exact (List.not_mem_nil x) hx

/-- `calc_total` on an order with no items evaluates to `some 0`. -/
theorem calc_total_no_items (s : DBState) (oid : Nat)
    (h : ∀ it ∈ s.order_items, ¬ it.restaurant_order_id = oid) :
    calc_total s oid = some 0 := by
  unfold calc_total
  rw [fixedContribs_nil s oid h, perKgContribs_nil s oid h]
  rfl

/-- In an error-free run `calc_total` always produces a value. -/
theorem calc_total_isSome (s : DBState) (oid : Nat) :
    ∃ t, calc_total s oid = some t := by
  unfold calc_total
  cases h : sqlAdd (sqlSum (fixedContribs s oid)) (sqlSum (perKgContribs s oid)) with
  | none => exact ⟨0, rfl⟩
  | some v => exact ⟨v, rfl⟩

/-! ## Claim theorems -/

/-- Claim C1 (code bug evaluated at the failing input): the SQL of
`calc_total` adds its two `SUM` branches with plain SQL `+` and only the
*final* value is coalesced to 0, so for an open order holding only
fixed-price items (here quantity 2 at price 10) the per-kg branch is `NULL`,
the whole sum is `NULL`, and `total` returns 0 — while the claimed
branch-wise coalescing semantics (`specTotal`) gives 20. -/
theorem calc_total_drops_lone_branch :
    get_total exC1 9 = TotalResult.okTotal 0 ∧
    calc_total exC1 1 = some 0 ∧
    specTotal exC1 1 = 20 := by
  refine ⟨?_, ?_, ?_⟩ <;>
    norm_num [get_total, select_by_number_open, calc_total, specTotal,
      fixedContribs, perKgContribs, sqlSum, sqlAdd, exC1]

/-- Claim C8: `total` on an open order with zero `OrderItem` rows succeeds
and returns 0 (both `SUM` branches are `NULL`, `NULL + NULL` is `NULL`, and
the handler coalesces the final `NULL` to 0 and reports success). -/
theorem get_total_zero_items (s : DBState) (n : Nat) (o : RestaurantOrder)
    (hsel : select_by_number_open s n = some o)
    (hitems : ∀ it ∈ s.order_items, ¬ it.restaurant_order_id = o.id) :
    get_total s n = TotalResult.okTotal 0 := by
  unfold get_total
  simp only [hsel, calc_total_no_items s o.id hitems]

/-- Claim C8 witness: the hypotheses of `get_total_zero_items` hold in the
concrete state `exC8` and the conclusion evaluates there. -/
theorem get_total_zero_items_witness :
    select_by_number_open exC8 4 = some exC8order ∧
    (∀ it ∈ exC8.order_items, ¬ it.restaurant_order_id = exC8order.id) ∧
    get_total exC8 4 = TotalResult.okTotal 0 :=
  ⟨by decide, by decide, get_total_zero_items exC8 4 exC8order (by decide) (by decide)⟩

/-- Claim C10: every per-kg line of the `/order/items` projection reports
`Total = Weight * PricePerKg` of the referenced `ProductPerKg` row — the
select list never multiplies by the item's quantity — while the per-kg
branch of `calc_total` contributes `Quantity * PricePerKg * Weight` for the
same joined row; for a quantity other than 1 (and a non-zero line value)
the two disagree. -/
theorem perKg_line_total_ignores_quantity
    (s : DBState) (oid : Nat) (it : OrderItem) (o : RestaurantOrder) (p : ProductPerKg)
    (hit : it ∈ s.order_items) (ho : o ∈ s.orders) (hp : p ∈ s.products_per_kg)
    (h1 : o.id = it.restaurant_order_id) (h2 : it.product_per_kg_id = some p.id)
    (h3 : o.id = oid) :
    (∀ l ∈ perKgLines s oid, l.total = l.weight * l.price_per_kg) ∧
    (⟨p.weight, p.price_per_kg, p.weight * p.price_per_kg, p.category, p.id⟩ : PerKgLine)
      ∈ perKgLines s oid ∧
    (it.quantity : Rat) * p.price_per_kg * p.weight ∈ perKgContribs s oid ∧
    (¬ it.quantity = 1 → ¬ p.price_per_kg * p.weight = 0 →
      ¬ p.weight * p.price_per_kg = (it.quantity : Rat) * p.price_per_kg * p.weight) := by
  refine ⟨?_, ?_, ?_, ?_⟩
  · intro l hl
    simp only [perKgLines, List.mem_flatMap] at hl
    obtain ⟨it', hit', o', ho', p', hp', hl⟩ := hl
    by_cases hc : o'.id = it'.restaurant_order_id ∧ it'.product_per_kg_id = some p'.id
        ∧ o'.id = oid
    · rw [if_pos hc, List.mem_singleton] at hl
      rw [hl]
    · rw [if_neg hc] at hl
      exact absurd hl (List.not_mem_nil l)
  · simp only [perKgLines, List.mem_flatMap]
    refine ⟨it, hit, o, ho, p, hp, ?_⟩
    rw [if_pos ⟨h1, h2, h3⟩]
    exact List.mem_singleton_self _
  · simp only [perKgContribs, List.mem_flatMap]
    refine ⟨it, hit, o, ho, p, hp, ?_⟩
    rw [if_pos ⟨h1, h2, h3⟩]
    exact List.mem_singleton_self _
  · intro hq hx heq
    rw [mul_comm p.weight p.price_per_kg, mul_assoc] at heq
    nth_rewrite 1 [← one_mul (p.price_per_kg * p.weight)] at heq
    have h1q : (1 : Rat) = (it.quantity : Rat) := mul_right_cancel₀ hx heq
    exact hq (by exact_mod_cast h1q.symm)

/-- Claim C10 witness: the hypotheses of `perKg_line_total_ignores_quantity`
hold in `exC10` (per-kg item with quantity 2, weight 3, price-per-kg 5), and
there the displayed line total is 15 while the `calc_total` contribution
is 30. -/
theorem perKg_line_total_ignores_quantity_witness :
    exC10item ∈ exC10.order_items ∧
    ((∀ l ∈ perKgLines exC10 1, l.total = l.weight * l.price_per_kg) ∧
     (⟨exC10perkg.weight, exC10perkg.price_per_kg,
       exC10perkg.weight * exC10perkg.price_per_kg, exC10perkg.category,
       exC10perkg.id⟩ : PerKgLine) ∈ perKgLines exC10 1 ∧
     (exC10item.quantity : Rat) * exC10perkg.price_per_kg * exC10perkg.weight
       ∈ perKgContribs exC10 1 ∧
     (¬ exC10item.quantity = 1 → ¬ exC10perkg.price_per_kg * exC10perkg.weight = 0 →
       ¬ exC10perkg.weight * exC10perkg.price_per_kg =
         (exC10item.quantity : Rat) * exC10perkg.price_per_kg * exC10perkg.weight)) :=
  ⟨by decide,
   perKg_line_total_ignores_quantity exC10 1 exC10item exC10order exC10perkg
     (by decide) (by decide) (by decide) (by decide) (by decide) (by decide)⟩

/-- Claim C4: a successful `checkout` on the open order resolved for the
supplied number closes it — every row with that order's id now has
`status = Closed`, `paid = true`, `exit_time = now`, `payment_method` the
supplied method, and `total_amount` exactly the value the `/order/total`
endpoint computes at that instant — and afterwards no `select_by_number_open`
lookup (the resolution step shared by `add_item`, `checkout` and `get_total`)
can return that order, because the lookup requires `status = Open`. -/
theorem checkout_snapshots_and_closes
    (s : DBState) (n : Nat) (pm : PaymentMethod) (note : Option String)
    (now : Int) (o : RestaurantOrder)
    (hsel : select_by_number_open s n = some o) :
    (checkout s n pm note now true).1 = CheckoutResult.ok ∧
    (∀ q ∈ (checkout s n pm note now true).2.orders, q.id = o.id →
       q.status = OrderStatus.Closed ∧ q.paid = true ∧ q.exit_time = some now ∧
       q.payment_method = some pm ∧ get_total s n = TotalResult.okTotal q.total_amount) ∧
    (∀ m q, select_by_number_open (checkout s n pm note now true).2 m = some q →
       ¬ q.id = o.id) := by
  obtain ⟨t, ht⟩ := calc_total_isSome s o.id
  have hck : checkout s n pm note now true =
      (CheckoutResult.ok,
       { s with orders := s.orders.map (fun q =>
           if q.id = o.id
           then { o with payment_method := some pm, note := note.getD o.note,
                         status := OrderStatus.Closed, exit_time := some now,
                         paid := true, total_amount := t }
           else q) }) := by
    unfold checkout
    simp only [hsel, ht]
    rfl
  refine ⟨by rw [hck], ?_, ?_⟩
  · intro q hq hid
    rw [hck] at hq
    obtain ⟨orig, horig, hq⟩ := List.mem_map.mp hq
    by_cases hoid : orig.id = o.id
    · rw [if_pos hoid] at hq
      rw [← hq]
      refine ⟨rfl, rfl, rfl, rfl, ?_⟩
      unfold get_total
      simp only [hsel, ht]
    · rw [if_neg hoid] at hq
      rw [← hq] at hid
      exact absurd hid hoid
  · intro m q hq hid
    have hqmem : q ∈ (checkout s n pm note now true).2.orders :=
      List.mem_of_find?_eq_some hq
    have hqpred := List.find?_some hq
    have hopen : q.status = OrderStatus.Open := (of_decide_eq_true hqpred).2
    rw [hck] at hqmem
    obtain ⟨orig, horig, hq'⟩ := List.mem_map.mp hqmem
    by_cases hoid : orig.id = o.id
    · rw [if_pos hoid] at hq'
      rw [← hq'] at hopen
      exact OrderStatus.noConfusion hopen
    · rw [if_neg hoid] at hq'
      rw [← hq'] at hid
      exact absurd hid hoid

/-- Claim C4 witness: the hypothesis of `checkout_snapshots_and_closes`
holds in `exC4` and the conclusion is obtained there for a cash checkout at
time 100. -/
theorem checkout_snapshots_and_closes_witness :
    select_by_number_open exC4 5 = some exC4order ∧
    ((checkout exC4 5 PaymentMethod.Cash none 100 true).1 = CheckoutResult.ok ∧
     (∀ q ∈ (checkout exC4 5 PaymentMethod.Cash none 100 true).2.orders,
        q.id = exC4order.id →
        q.status = OrderStatus.Closed ∧ q.paid = true ∧ q.exit_time = some 100 ∧
        q.payment_method = some PaymentMethod.Cash ∧
        get_total exC4 5 = TotalResult.okTotal q.total_amount) ∧
     (∀ m q, select_by_number_open
          (checkout exC4 5 PaymentMethod.Cash none 100 true).2 m = some q →
        ¬ q.id = exC4order.id)) :=
  ⟨by decide,
   checkout_snapshots_and_closes exC4 5 PaymentMethod.Cash none 100 exC4order (by decide)⟩

/-- Claim C2 counterexample: a successful fixed-price `add_item` call
*does* modify `Product.stock` — the handler runs
`order_product.stock -= order_item.quantity` followed by
`ProductRepository.update`, so here stock drops from 10 to 8. -/
theorem add_item_modifies_stock :
    (add_item exC2 1 (some 3) none 2 5 true true).1 = AddItemResult.okFixedUpdated ∧
    ¬ (add_item exC2 1 (some 3) none 2 5 true true).2.products = exC2.products ∧
    (add_item exC2 1 (some 3) none 2 5 true true).2.products =
      [⟨3, "Burger", "", 10, "Food", 8, true⟩] := by decide

/-- Claim C2 as amended: on the fixed-price path a successful `add_item`
overwrites every `Product` row carrying the resolved product's id with that
product's fields and `stock` decremented by the requested quantity — with no
quantity-vs-stock comparison, so the theorem needs no hypothesis about the
stock value and the result may go negative — while the per-kg path leaves
the `Product` table untouched. -/
theorem add_item_stock_effect
    (s : DBState) (n : Nat) (qty : Int) (newId : Nat) (o : RestaurantOrder)
    (hsel : select_by_number_open s n = some o) :
    (∀ pid prod, product_select_by_id s pid = some prod →
       (add_item s n (some pid) none qty newId true true).2.products =
         s.products.map (fun q =>
           if q.id = prod.id then { prod with stock := prod.stock - qty } else q)) ∧
    (∀ pk prodk, perkg_select_by_id s pk = some prodk →
       (add_item s n none (some pk) qty newId true true).2.products = s.products) := by
  constructor
  · intro pid prod hprod
    unfold add_item
    simp only [hsel, hprod]
    rfl
  · intro pk prodk hpk
    unfold add_item
    simp only [hsel, hpk]
    rfl

/-- Claim C2 amended witness: the hypotheses of `add_item_stock_effect` hold
in `exC2` (open order number 1, product 3, per-kg product 7) and the
conclusion is obtained there. -/
theorem add_item_stock_effect_witness :
    select_by_number_open exC2 1 =
      some ⟨1, 1, 0, none, OrderStatus.Open, "", none, 0, false⟩ ∧
    ((∀ pid prod, product_select_by_id exC2 pid = some prod →
        (add_item exC2 1 (some pid) none 2 5 true true).2.products =
          exC2.products.map (fun q =>
            if q.id = prod.id then { prod with stock := prod.stock - 2 } else q)) ∧
     (∀ pk prodk, perkg_select_by_id exC2 pk = some prodk →
        (add_item exC2 1 none (some pk) 2 5 true true).2.products = exC2.products)) :=
  ⟨by decide,
   add_item_stock_effect exC2 1 2 5 ⟨1, 1, 0, none, OrderStatus.Open, "", none, 0, false⟩
     (by decide)⟩

/-- Claim C7: on an existing open order, an `add_item` request supplying
both of `product_id` / `product_per_kg_id`, or neither, returns `Conflict`
and leaves the database state — in particular the `OrderItem` table —
unchanged. -/
theorem add_item_both_or_neither_conflict
    (s : DBState) (n : Nat) (pid ppkid : Option Nat) (qty : Int) (newId : Nat)
    (insertOk updateOk : Bool) (o : RestaurantOrder)
    (hsel : select_by_number_open s n = some o)
    (hbad : (¬ pid = none ∧ ¬ ppkid = none) ∨ (pid = none ∧ ppkid = none)) :
    add_item s n pid ppkid qty newId insertOk updateOk = (AddItemResult.conflict, s) := by
  cases pid with
  | none =>
    cases ppkid with
    | none =>
      unfold add_item
      simp only [hsel]
    | some b =>
      rcases hbad with ⟨h1, _⟩ | ⟨_, h2⟩
      · exact absurd rfl h1
      · exact Option.noConfusion h2
  | some a =>
    cases ppkid with
    | none =>
      rcases hbad with ⟨_, h2⟩ | ⟨h1, _⟩
      · exact absurd rfl h2
      · exact Option.noConfusion h1
    | some b =>
      unfold add_item
      simp only [hsel]

/-- Claim C7 witness: the hypotheses of `add_item_both_or_neither_conflict`
hold in `exC2` for a request supplying both ids, and the call returns
`Conflict` with the state unchanged. -/
theorem add_item_both_or_neither_conflict_witness :
    select_by_number_open exC2 1 =
      some ⟨1, 1, 0, none, OrderStatus.Open, "", none, 0, false⟩ ∧
    add_item exC2 1 (some 3) (some 7) 1 9 true true = (AddItemResult.conflict, exC2) :=
  ⟨by decide,
   add_item_both_or_neither_conflict exC2 1 (some 3) (some 7) 1 9 true true
     ⟨1, 1, 0, none, OrderStatus.Open, "", none, 0, false⟩ (by decide)
     (Or.inl ⟨Option.noConfusion, Option.noConfusion⟩)⟩

/-- Claim C3 (code bug): a *successful* `edit_user` never touches the
`JWTList` table — the `delete_by_user_id` call sits after the
success-path early return and runs only when the `UPDATE` failed — so after
a successful password change the user's old refresh-token record is still
on the allow-list.  First conjunct: on every success path (`updateOk =
true`) the allow-list is unchanged; second: evaluated at the failing input
(`exC3`, password change for `alice`), the edit reports success and the
pre-edit token `tok1` still passes `exists_by_jti`. -/
theorem edit_user_success_keeps_refresh_tokens :
    (∀ (s : DBState) (hashFn : String → String) (username : String)
       (a b c d : Option String) (e : Option Bool) (f : Option UserRole),
       ((edit_user s hashFn username a b c d e f true).2).jwt_list = s.jwt_list) ∧
    ((edit_user exC3 exHashFn "alice" none none none (some "newpw") none none true).1
       = EditResult.ok ∧
     exists_by_jti
       (edit_user exC3 exHashFn "alice" none none none (some "newpw") none none true).2
       "tok1" = true) := by
  refine ⟨?_, by decide, by decide⟩
  intro s hashFn username a b c d e f
  unfold edit_user
  cases hsel : select_by_username s username with
  | none => rfl
  | some old =>
    dsimp only
    split
    · rfl
    · split
      · rfl
      · rfl

/-- Claim C5: `login` produces the identical `401` result — the same
`unauthorized` constructor with the same `"Wrong username or password"`
message, and an unchanged state — in all three failure cases: username
absent, user present but inactive, and password mismatch. -/
theorem login_uniform_unauthorized
    (s : DBState) (verify : String → String → Bool)
    (username password accessTok refreshTok : String) (expiresAt : Int)
    (h : select_by_username s username = none
       ∨ (∃ u, select_by_username s username = some u ∧ u.active = false)
       ∨ (∃ u, select_by_username s username = some u ∧ u.active = true ∧
               verify password u.password_hash = false)) :
    login s verify username password accessTok refreshTok expiresAt =
      (LoginResult.unauthorized "Wrong username or password", s) := by
  unfold login
  rcases h with h | ⟨u, hu, hact⟩ | ⟨u, hu, hact, hver⟩
  · simp only [h]
  · simp only [hu, hact]
    rfl
  · simp only [hu, hact, hver]
    rfl

/-- Claim C5 witness: the absent-username hypothesis of
`login_uniform_unauthorized` holds in the user-less state `exC5`, and the
login there is the generic 401. -/
theorem login_uniform_unauthorized_witness :
    select_by_username exC5 "bob" = none ∧
    login exC5 exVerify "bob" "pw" "acc" "ref" 7 =
      (LoginResult.unauthorized "Wrong username or password", exC5) :=
  ⟨by decide,
   login_uniform_unauthorized exC5 exVerify "bob" "pw" "acc" "ref" 7
     (Or.inl (by decide))⟩

/-- Claim C6: a successful `login` replaces the user's allow-list state:
it deletes every `JWTList` row carrying the user's id and inserts the one
new record, so afterwards the rows for that user are exactly the single
fresh record — no matter how many records prior logins had left. -/
theorem login_single_allowlist_record
    (s : DBState) (verify : String → String → Bool)
    (username password accessTok refreshTok : String) (expiresAt : Int) (u : User)
    (hu : select_by_username s username = some u)
    (hact : u.active = true) (hver : verify password u.password_hash = true) :
    (login s verify username password accessTok refreshTok expiresAt).1 =
      LoginResult.ok accessTok refreshTok ∧
    ((login s verify username password accessTok refreshTok expiresAt).2).jwt_list.filter
        (fun j => decide (j.user_id = u.id)) = [⟨refreshTok, u.id, expiresAt⟩] := by
  have hlg : login s verify username password accessTok refreshTok expiresAt =
      (LoginResult.ok accessTok refreshTok,
       { s with jwt_list :=
           (s.jwt_list.filter (fun j => decide (¬ j.user_id = u.id)))
             ++ [⟨refreshTok, u.id, expiresAt⟩] }) := by
    unfold login
    simp only [hu, hact, hver]
    rfl
  refine ⟨by rw [hlg], ?_⟩
  rw [hlg]
  show ((s.jwt_list.filter (fun j : JWTItem => decide (¬ j.user_id = u.id)))
          ++ ([⟨refreshTok, u.id, expiresAt⟩] : List JWTItem)).filter
        (fun j : JWTItem => decide (j.user_id = u.id)) =
      ([⟨refreshTok, u.id, expiresAt⟩] : List JWTItem)
  rw [List.filter_append]
  have hnil : (s.jwt_list.filter (fun j => decide (¬ j.user_id = u.id))).filter
      (fun j => decide (j.user_id = u.id)) = [] := by
    rw [List.filter_eq_nil_iff]
    intro j hj
    have hpj := List.of_mem_filter hj
    simp only [decide_eq_true_eq] at hpj
    simp [hpj]
  rw [hnil]
  simp

/-- Claim C6 witness: the hypotheses of `login_single_allowlist_record` hold
in `exC6` (user `alice`, correct password, one stale allow-list row) and the
conclusion is obtained there. -/
theorem login_single_allowlist_record_witness :
    select_by_username exC6 "alice" = some exC6user ∧
    ((login exC6 exVerify "alice" "pw" "acc" "ref" 7).1 =
       LoginResult.ok "acc" "ref" ∧
     ((login exC6 exVerify "alice" "pw" "acc" "ref" 7).2).jwt_list.filter
         (fun j => decide (j.user_id = exC6user.id)) = [⟨"ref", exC6user.id, 7⟩]) :=
  ⟨by decide,
   login_single_allowlist_record exC6 exVerify "alice" "pw" "acc" "ref" 7 exC6user
     (by decide) (by decide) (by decide)⟩

/-- Claim C9 counterexample: with no paid order in the window at all (the
database is empty), `get_order_status` does *not* fail `NotFound` — the
`get_order_stats` aggregate query always returns its single (here all-`NULL`)
row, so the `NotFound` branch, which needs both repository results absent,
is not taken and the handler reports success. -/
theorem stats_empty_window_success :
    windowOrders exC9 0 10 = [] ∧
    get_order_status exC9 0 10 =
      StatsResult.ok none (some ⟨none, none, none, none, none, none, none, none⟩) := by
  decide

/-- Claim C9 as amended: in an error-free run `get_order_status` never
returns `NotFound` — `get_order_stats` always yields a row (all fields
`NULL` when no paid order matches the window), so an empty window still
succeeds, with a `NULL` payment summary and all-`NULL` order stats; a
window with at least one matching order succeeds a fortiori. -/
theorem get_order_status_never_notfound (s : DBState) (a b : Int) :
    ∃ ps os, get_order_status s a b = StatsResult.ok ps os := by
  refine ⟨get_payment_summary s a b, get_order_stats s a b, ?_⟩
  unfold get_order_status
  rw [if_neg]
  intro hh
  exact Option.noConfusion hh.2

end PyCommander
